import Mathlib

/-!
Verification of the streaming JPEG decode-to-framebuffer pipeline of
`src/lib/Epub/Epub/converters/JpegToFramebufferConverter.cpp`.

The embedding is shallow: every definition below is translated from the
C++ source.  Machine integers (`int`, `int32_t`, `int64_t`) are modelled
as `ℤ`; all intermediate products in the source fit comfortably inside
the C types (widths and heights are screen-sized, fixed-point factors are
16.16), so no wrap-around modelling is required on the verified paths.
C's `>> 16` on a signed int is an arithmetic shift, i.e. floor division
by 2^16, which is exactly `ℤ`'s `/` (Euclidean division, floor for a
positive divisor); C's `& 0xFFFF` on two's complement equals `% 2^16`
(`Int.emod`, non-negative for a positive modulus).  The `float`
`targetScale` is modelled as an exact rational; the thresholds 0.125,
0.25 and 0.5 and the division boundaries the claims mention are exactly
representable in binary floating point, so the branch structure is
preserved.  8-bit grayscale sample buffers are modelled as total
functions `ℤ → ℕ` from flat buffer index to sample value.
-/

namespace JpegToFramebuffer

/-- 16.16 fixed point shift (`FP_SHIFT` in the source). -/
def FP_SHIFT : ℕ := 16

/-- `FP_ONE = 1 << FP_SHIFT`. -/
def FP_ONE : ℤ := 65536

/-- `FP_MASK = FP_ONE - 1`. -/
def FP_MASK : ℤ := FP_ONE - 1

/-- `JPEG_DECODER_APPROX_SIZE = 20 * 1024` bytes. -/
def JPEG_DECODER_APPROX_SIZE : ℕ := 20 * 1024

/-- `MIN_FREE_HEAP_FOR_JPEG = JPEG_DECODER_APPROX_SIZE + 16 * 1024`. -/
def MIN_FREE_HEAP_FOR_JPEG : ℕ := JPEG_DECODER_APPROX_SIZE + 16 * 1024

/-- The dithering-disabled quantization used on every pixel path:
`dithered = gray / 85; if (dithered > 3) dithered = 3;`. -/
def quantizeNoDither (gray : ℕ) : ℕ :=
  let dithered := gray / 85
  if dithered > 3 then 3 else dithered

/-- `chooseJpegScale` (source lines 102-117): picks JPEGDEC's coarse
decimation denominator from the target scale.  Only the returned
denominator is modelled; `jpegScaleOption` is a parallel enum constant
determined by the same branch. -/
def chooseJpegScale (targetScale : ℚ) : ℕ :=
  if targetScale ≤ 1/8 then 8
  else if targetScale ≤ 1/4 then 4
  else if targetScale ≤ 1/2 then 2
  else 1

/-- The denominator actually used by `decodeToFramebuffer`
(source lines 432-439): progressive sources force 8, otherwise
`chooseJpegScale` decides. -/
def jpegScaleDenomFor (isProgressive : Bool) (targetScale : ℚ) : ℕ :=
  if isProgressive then 8 else chooseJpegScale targetScale

/-- `RenderConfig` fields consumed by the converter.  `cachePathEmpty`
models `config.cachePath.empty()`. -/
structure RenderConfig where
  mk ::
  x : ℤ
  y : ℤ
  maxWidth : ℤ
  maxHeight : ℤ
  useExactDimensions : Bool
  useDithering : Bool
  cachePathEmpty : Bool

/-- Target scale computation (source lines 414-426), with the `float`
arithmetic modelled exactly over `ℚ`. -/
def targetScale (cfg : RenderConfig) (srcWidth srcHeight : ℤ) : ℚ :=
  if cfg.useExactDimensions = true ∧ 0 < cfg.maxWidth ∧ 0 < cfg.maxHeight then
    (cfg.maxWidth : ℚ) / (srcWidth : ℚ)
  else
    let scaleX : ℚ :=
      if 0 < cfg.maxWidth ∧ cfg.maxWidth < srcWidth then (cfg.maxWidth : ℚ) / (srcWidth : ℚ) else 1
    let scaleY : ℚ :=
      if 0 < cfg.maxHeight ∧ cfg.maxHeight < srcHeight then (cfg.maxHeight : ℚ) / (srcHeight : ℚ) else 1
    let ts := if scaleX < scaleY then scaleX else scaleY
    if 1 < ts then 1 else ts

/-- Destination width (source lines 415 / 424): `(int)(srcWidth * targetScale)`;
the product is non-negative so the C truncation is a floor. -/
def destWidth (cfg : RenderConfig) (srcWidth srcHeight : ℤ) : ℤ :=
  if cfg.useExactDimensions = true ∧ 0 < cfg.maxWidth ∧ 0 < cfg.maxHeight then
    cfg.maxWidth
  else
    ⌊(srcWidth : ℚ) * targetScale cfg srcWidth srcHeight⌋

/-- Destination height (source lines 416 / 425). -/
def destHeight (cfg : RenderConfig) (srcWidth srcHeight : ℤ) : ℤ :=
  if cfg.useExactDimensions = true ∧ 0 < cfg.maxWidth ∧ 0 < cfg.maxHeight then
    cfg.maxHeight
  else
    ⌊(srcHeight : ℚ) * targetScale cfg srcWidth srcHeight⌋

/-- Scaled source dimension after coarse decimation (source lines 441-442):
`(src + denom - 1) / denom`, i.e. ceiling division. -/
def scaledDim (src : ℤ) (denom : ℕ) : ℤ := (src + (denom : ℤ) - 1) / (denom : ℤ)

/-- Forward 16.16 scale factor (source line 445):
`(int32_t)((int64_t)destWidth * FP_ONE / scaledSrcWidth)`. -/
def fineScaleFPOf (destW scaledW : ℤ) : ℤ := destW * FP_ONE / scaledW

/-- Inverse 16.16 scale factor (source line 446), computed by an
independent integer division. -/
def invScaleFPOf (destW scaledW : ℤ) : ℤ := scaledW * FP_ONE / destW

/-- C2: the coarse decimation denominator is 8 for progressive sources
regardless of target scale, and otherwise follows the ordered thresholds
scale ≤ 1/8 → 8, ≤ 1/4 → 4, ≤ 1/2 → 2, else 1, each boundary inclusive
on the smaller side. -/
theorem coarse_denominator_selection (ts : ℚ) :
    jpegScaleDenomFor true ts = 8 ∧
    (ts ≤ 1/8 → jpegScaleDenomFor false ts = 8) ∧
    (1/8 < ts → ts ≤ 1/4 → jpegScaleDenomFor false ts = 4) ∧
    (1/4 < ts → ts ≤ 1/2 → jpegScaleDenomFor false ts = 2) ∧
    (1/2 < ts → jpegScaleDenomFor false ts = 1) ∧
    jpegScaleDenomFor false (1/8) = 8 ∧
    jpegScaleDenomFor false (1/4) = 4 ∧
    jpegScaleDenomFor false (1/2) = 2 := by
  refine ⟨rfl, ?_, ?_, ?_, ?_, by norm_num [jpegScaleDenomFor, chooseJpegScale],
    by norm_num [jpegScaleDenomFor, chooseJpegScale],
    by norm_num [jpegScaleDenomFor, chooseJpegScale]⟩ <;>
    · intros
      simp only [jpegScaleDenomFor, chooseJpegScale, Bool.false_eq_true, if_false]
      split_ifs <;> first | rfl | linarith

/-- Witness for C2 at the boundary value 1/4. -/
theorem coarse_denominator_selection_witness :
    jpegScaleDenomFor false (26/100 : ℚ) = 2 :=
  (coarse_denominator_selection (26/100)).2.2.2.1 (by norm_num) (by norm_num)

/-- C6: in fit-within-bounds mode the target scale is the minimum of the
per-axis shrink ratios (each applied only when the bound is positive and
smaller than the source) clamped to at most 1, and the destination
dimensions are floors of source times target scale. -/
theorem target_scale_fit_within_bounds (cfg : RenderConfig) (srcWidth srcHeight : ℤ)
    (h : cfg.useExactDimensions = false ∨ cfg.maxWidth ≤ 0 ∨ cfg.maxHeight ≤ 0)
    (hW : 0 < srcWidth) (hH : 0 < srcHeight) :
    targetScale cfg srcWidth srcHeight =
      min (min (if 0 < cfg.maxWidth ∧ cfg.maxWidth < srcWidth
                  then (cfg.maxWidth : ℚ) / (srcWidth : ℚ) else 1)
               (if 0 < cfg.maxHeight ∧ cfg.maxHeight < srcHeight
                  then (cfg.maxHeight : ℚ) / (srcHeight : ℚ) else 1)) 1 ∧
    targetScale cfg srcWidth srcHeight ≤ 1 ∧
    destWidth cfg srcWidth srcHeight = ⌊(srcWidth : ℚ) * targetScale cfg srcWidth srcHeight⌋ ∧
    destHeight cfg srcWidth srcHeight = ⌊(srcHeight : ℚ) * targetScale cfg srcWidth srcHeight⌋ := by
  have hcond : ¬(cfg.useExactDimensions = true ∧ 0 < cfg.maxWidth ∧ 0 < cfg.maxHeight) := by
    rcases h with h | h | h
    · simp [h]
    · intro hc; exact absurd hc.2.1 (not_lt.mpr h)
    · intro hc; exact absurd hc.2.2 (not_lt.mpr h)
  have hts : targetScale cfg srcWidth srcHeight =
      min (min (if 0 < cfg.maxWidth ∧ cfg.maxWidth < srcWidth
                  then (cfg.maxWidth : ℚ) / (srcWidth : ℚ) else 1)
               (if 0 < cfg.maxHeight ∧ cfg.maxHeight < srcHeight
                  then (cfg.maxHeight : ℚ) / (srcHeight : ℚ) else 1)) 1 := by
    rw [targetScale, if_neg hcond]
    have hmin : ∀ a b : ℚ, (if a < b then a else b) = min a b := by
      intro a b
      rcases lt_or_ge a b with hab | hab
      · rw [if_pos hab, min_eq_left hab.le]
      · rw [if_neg (not_lt.mpr hab), min_eq_right hab]
    have hclamp : ∀ a : ℚ, (if 1 < a then (1 : ℚ) else a) = min a 1 := by
      intro a
      rcases lt_or_ge 1 a with ha | ha
      · rw [if_pos ha, min_eq_right ha.le]
      · rw [if_neg (not_lt.mpr ha), min_eq_left ha]
    simp only [hmin, hclamp]
    exact min_comm _ _
  refine ⟨hts, ?_, ?_, ?_⟩
  · rw [hts]; exact min_le_right _ _
  · rw [destWidth, if_neg hcond]
  · rw [destHeight, if_neg hcond]

/-- Witness for C6: the spec's end-to-end example, a non-progressive
800x600 source fitted into 400x300, giving target scale 1/2,
destination 400x300 and coarse denominator 2. -/
theorem target_scale_fit_within_bounds_witness :
    targetScale (RenderConfig.mk 0 0 400 300 false false true) 800 600 = 1/2 ∧
    destWidth (RenderConfig.mk 0 0 400 300 false false true) 800 600 = 400 ∧
    destHeight (RenderConfig.mk 0 0 400 300 false false true) 800 600 = 300 ∧
    jpegScaleDenomFor false (targetScale (RenderConfig.mk 0 0 400 300 false false true) 800 600) = 2 ∧
    fineScaleFPOf 400 (scaledDim 800 2) = FP_ONE := by
  have h := target_scale_fit_within_bounds (RenderConfig.mk 0 0 400 300 false false true) 800 600
    (Or.inl rfl) (by norm_num) (by norm_num)
  obtain ⟨hts, -, hdw, hdh⟩ := h
  have hts' : targetScale (RenderConfig.mk 0 0 400 300 false false true) 800 600 = 1/2 := by
    rw [hts]; norm_num
  refine ⟨hts', ?_, ?_, ?_, ?_⟩
  · rw [hdw, hts']; norm_num
  · rw [hdh, hts']; norm_num
  · rw [hts']; norm_num [jpegScaleDenomFor, chooseJpegScale]
  · norm_num [fineScaleFPOf, scaledDim, FP_ONE]

/-- Per-block callback context: the fields of `JpegContext` read by
`jpegDrawCallback` (source lines 19-52 and 137-145). -/
structure JpegCtx where
  mk ::
  screenWidth : ℤ
  screenHeight : ℤ
  scaledSrcWidth : ℤ
  scaledSrcHeight : ℤ
  dstWidth : ℤ
  dstHeight : ℤ
  fineScaleFP : ℤ
  invScaleFP : ℤ
  cfgX : ℤ
  cfgY : ℤ
  useDithering : Bool
  caching : Bool

/-- One decoded block as delivered to `jpegDrawCallback` (source lines
128-145): origin `(x, y)` in scaled-source coordinates, buffer stride
`width` (= `pDraw->iWidth`), valid sample count `widthUsed`
(= `pDraw->iWidthUsed`), row count `height`, and the densely packed
8-bit sample buffer `px` addressed by flat index `row * width + col`. -/
structure JpegBlock where
  mk ::
  x : ℤ
  y : ℤ
  width : ℤ
  widthUsed : ℤ
  height : ℤ
  px : ℤ → ℕ

/-- `srcYEnd = blockY + blockH` (source line 148). -/
def srcYEnd (b : JpegBlock) : ℤ := b.y + b.height

/-- `srcXEnd = blockX + validW` (source line 149). -/
def srcXEnd (b : JpegBlock) : ℤ := b.x + b.widthUsed

/-- Unclamped destination row start (source line 151). -/
def dstYStart0 (c : JpegCtx) (b : JpegBlock) : ℤ := b.y * c.fineScaleFP / FP_ONE

/-- Unclamped destination row end (source line 152). -/
def dstYEnd0 (c : JpegCtx) (b : JpegBlock) : ℤ :=
  if c.scaledSrcHeight ≤ srcYEnd b then c.dstHeight else srcYEnd b * c.fineScaleFP / FP_ONE

/-- Unclamped destination column start (source line 153). -/
def dstXStart0 (c : JpegCtx) (b : JpegBlock) : ℤ := b.x * c.fineScaleFP / FP_ONE

/-- Unclamped destination column end (source line 154). -/
def dstXEnd0 (c : JpegCtx) (b : JpegBlock) : ℤ :=
  if c.scaledSrcWidth ≤ srcXEnd b then c.dstWidth else srcXEnd b * c.fineScaleFP / FP_ONE

/-- `clampYMax` (source lines 157-158). -/
def clampYMax (c : JpegCtx) : ℤ :=
  if c.screenHeight - c.cfgY < c.dstHeight then c.screenHeight - c.cfgY else c.dstHeight

/-- `clampXMax` (source lines 162-163). -/
def clampXMax (c : JpegCtx) : ℤ :=
  if c.screenWidth - c.cfgX < c.dstWidth then c.screenWidth - c.cfgX else c.dstWidth

/-- Clamped destination row start (source line 159). -/
def dstYStart (c : JpegCtx) (b : JpegBlock) : ℤ :=
  if dstYStart0 c b < -c.cfgY then -c.cfgY else dstYStart0 c b

/-- Clamped destination row end (source line 160). -/
def dstYEnd (c : JpegCtx) (b : JpegBlock) : ℤ :=
  if clampYMax c < dstYEnd0 c b then clampYMax c else dstYEnd0 c b

/-- Clamped destination column start (source line 164). -/
def dstXStart (c : JpegCtx) (b : JpegBlock) : ℤ :=
  if dstXStart0 c b < -c.cfgX then -c.cfgX else dstXStart0 c b

/-- Clamped destination column end (source line 165). -/
def dstXEnd (c : JpegCtx) (b : JpegBlock) : ℤ :=
  if clampXMax c < dstXEnd0 c b then clampXMax c else dstXEnd0 c b

/-- Bilinear path: raw safe interior start (source line 197):
`(blockX * fineScaleFP + FP_MASK) >> FP_SHIFT`. -/
def safeXStart0 (c : JpegCtx) (b : JpegBlock) : ℤ :=
  (b.x * c.fineScaleFP + FP_MASK) / FP_ONE

/-- Bilinear path: raw safe interior end (source line 198):
`((blockX + validW - 1) * fineScaleFP) >> FP_SHIFT`. -/
def safeXEnd0 (c : JpegCtx) (b : JpegBlock) : ℤ :=
  (b.x + b.widthUsed - 1) * c.fineScaleFP / FP_ONE

/-- Clamped safe interior start (source line 199). -/
def safeXStart (c : JpegCtx) (b : JpegBlock) : ℤ :=
  if safeXStart0 c b < dstXStart c b then dstXStart c b else safeXStart0 c b

/-- Clamped safe interior end (source lines 200-201). -/
def safeXEnd (c : JpegCtx) (b : JpegBlock) : ℤ :=
  let e := if dstXEnd c b < safeXEnd0 c b then dstXEnd c b else safeXEnd0 c b
  if e < safeXStart c b then safeXStart c b else e

/-- Interior-loop lower column index (source line 251):
`lx0 = (srcFxFP >> FP_SHIFT) - blockX`, read unclamped together with
`lx0 + 1`. -/
def interiorLx0 (c : JpegCtx) (b : JpegBlock) (dstX : ℤ) : ℤ :=
  dstX * c.invScaleFP / FP_ONE - b.x

/-- C1 (code bug): concrete decode configuration on which the claim
fails.  A 512-wide source decoded at denominator 8 gives
`scaledSrcWidth = 64`; a destination width of 66 gives the bilinear
upscale path with `fineScaleFP = 67584` and `invScaleFP = 63550`
(the two independent divisions of source lines 445-446).  For the block
with `blockX = 32`, `validW = 32` the precomputed safe interior range is
`[33, 64)`, yet at `dstX = 33` the unclamped interior index is
`lx0 = (33 * 63550 >> 16) - 32 = -1`, one sample before the block:
the interior loop reads out of range, contradicting the claim (and the
code's own comments at lines 195-196 and 245). -/
theorem bilinear_safe_interior_failing_input :
    fineScaleFPOf 66 64 = 67584 ∧
    invScaleFPOf 66 64 = 63550 ∧
    FP_ONE < (67584 : ℤ) ∧
    safeXStart (JpegCtx.mk 1000 1000 64 8 66 8 67584 63550 0 0 false false)
        (JpegBlock.mk 32 0 32 32 8 fun _ => 0) = 33 ∧
    safeXEnd (JpegCtx.mk 1000 1000 64 8 66 8 67584 63550 0 0 false false)
        (JpegBlock.mk 32 0 32 32 8 fun _ => 0) = 64 ∧
    interiorLx0 (JpegCtx.mk 1000 1000 64 8 66 8 67584 63550 0 0 false false)
        (JpegBlock.mk 32 0 32 32 8 fun _ => 0) 33 = -1 := by
  refine ⟨by decide, by decide, by decide, ?_, ?_, by decide⟩
  · show (if (2162688 + FP_MASK) / FP_ONE < _ then _ else (2162688 + FP_MASK) / FP_ONE) = 33
    decide
  · decide

/-- Helper for C3: the clamped destination row ranges of two
vertically ordered blocks are disjoint (the first ends no later than
the second starts). -/
theorem dstY_ranges_ordered (c : JpegCtx) (b1 b2 : JpegBlock)
    (hf : 0 ≤ c.fineScaleFP)
    (horder : b1.y + b1.height ≤ b2.y)
    (hin : b2.y < c.scaledSrcHeight) :
    dstYEnd c b1 ≤ dstYStart c b2 := by
  have hend0 : dstYEnd0 c b1 = srcYEnd b1 * c.fineScaleFP / FP_ONE := by
    rw [dstYEnd0, if_neg]
    rw [srcYEnd, not_le]
    omega
  have hmono : srcYEnd b1 * c.fineScaleFP / FP_ONE ≤ b2.y * c.fineScaleFP / FP_ONE := by
    apply Int.ediv_le_ediv (by norm_num [FP_ONE])
    apply mul_le_mul_of_nonneg_right _ hf
    rw [srcYEnd]; exact horder
  have h1 : dstYEnd c b1 ≤ dstYEnd0 c b1 := by
    rw [dstYEnd]; split <;> omega
  have h2 : dstYStart0 c b2 ≤ dstYStart c b2 := by
    rw [dstYStart]; split <;> omega
  have hstart0 : dstYStart0 c b2 = b2.y * c.fineScaleFP / FP_ONE := rfl
  omega

/-- Helper for C3: the clamped destination column ranges of two
horizontally ordered blocks are disjoint. -/
theorem dstX_ranges_ordered (c : JpegCtx) (b1 b2 : JpegBlock)
    (hf : 0 ≤ c.fineScaleFP)
    (horder : b1.x + b1.widthUsed ≤ b2.x)
    (hin : b2.x < c.scaledSrcWidth) :
    dstXEnd c b1 ≤ dstXStart c b2 := by
  have hend0 : dstXEnd0 c b1 = srcXEnd b1 * c.fineScaleFP / FP_ONE := by
    rw [dstXEnd0, if_neg]
    rw [srcXEnd, not_le]
    omega
  have hmono : srcXEnd b1 * c.fineScaleFP / FP_ONE ≤ b2.x * c.fineScaleFP / FP_ONE := by
    apply Int.ediv_le_ediv (by norm_num [FP_ONE])
    apply mul_le_mul_of_nonneg_right _ hf
    rw [srcXEnd]; exact horder
  have h1 : dstXEnd c b1 ≤ dstXEnd0 c b1 := by
    rw [dstXEnd]; split <;> omega
  have h2 : dstXStart0 c b2 ≤ dstXStart c b2 := by
    rw [dstXStart]; split <;> omega
  have hstart0 : dstXStart0 c b2 = b2.x * c.fineScaleFP / FP_ONE := rfl
  omega

/-- C3: two distinct blocks delivered in the engine's fixed order —
either the second block's source rows start at or after the end of the
first block's rows, or the two blocks are horizontal chunks of the same
row strip with the second's columns after the first's — have disjoint
clamped destination footprints, so every destination pixel is drawn and
cached at most once per decode call. -/
theorem block_footprints_disjoint (c : JpegCtx) (b1 b2 : JpegBlock)
    (hf : 0 ≤ c.fineScaleFP)
    (horder : (b1.y + b1.height ≤ b2.y ∧ b2.y < c.scaledSrcHeight) ∨
              (b1.y = b2.y ∧ b1.height = b2.height ∧
               b1.x + b1.widthUsed ≤ b2.x ∧ b2.x < c.scaledSrcWidth)) :
    ∀ px py : ℤ,
      ¬((dstXStart c b1 ≤ px ∧ px < dstXEnd c b1 ∧
         dstYStart c b1 ≤ py ∧ py < dstYEnd c b1) ∧
        (dstXStart c b2 ≤ px ∧ px < dstXEnd c b2 ∧
         dstYStart c b2 ≤ py ∧ py < dstYEnd c b2)) := by
  intro px py hboth
  rcases horder with ⟨hord, hin⟩ | ⟨hy, hh, hord, hin⟩
  · have := dstY_ranges_ordered c b1 b2 hf hord hin
    omega
  · have := dstX_ranges_ordered c b1 b2 hf hord hin
    omega

/-- Witness for C3: two stacked 8-row blocks of a 64-row scaled
source claim no common destination pixel. -/
theorem block_footprints_disjoint_witness :
    ¬((dstXStart (JpegCtx.mk 1000 1000 64 64 66 66 67584 63550 0 0 false false)
          (JpegBlock.mk 0 0 64 64 8 fun _ => 0) ≤ 3 ∧
       (3:ℤ) < dstXEnd (JpegCtx.mk 1000 1000 64 64 66 66 67584 63550 0 0 false false)
          (JpegBlock.mk 0 0 64 64 8 fun _ => 0) ∧
       dstYStart (JpegCtx.mk 1000 1000 64 64 66 66 67584 63550 0 0 false false)
          (JpegBlock.mk 0 0 64 64 8 fun _ => 0) ≤ 8 ∧
       (8:ℤ) < dstYEnd (JpegCtx.mk 1000 1000 64 64 66 66 67584 63550 0 0 false false)
          (JpegBlock.mk 0 0 64 64 8 fun _ => 0)) ∧
      (dstXStart (JpegCtx.mk 1000 1000 64 64 66 66 67584 63550 0 0 false false)
          (JpegBlock.mk 0 8 64 64 8 fun _ => 0) ≤ 3 ∧
       (3:ℤ) < dstXEnd (JpegCtx.mk 1000 1000 64 64 66 66 67584 63550 0 0 false false)
          (JpegBlock.mk 0 8 64 64 8 fun _ => 0) ∧
       dstYStart (JpegCtx.mk 1000 1000 64 64 66 66 67584 63550 0 0 false false)
          (JpegBlock.mk 0 8 64 64 8 fun _ => 0) ≤ 8 ∧
       (8:ℤ) < dstYEnd (JpegCtx.mk 1000 1000 64 64 66 66 67584 63550 0 0 false false)
          (JpegBlock.mk 0 8 64 64 8 fun _ => 0))) :=
  block_footprints_disjoint
    (JpegCtx.mk 1000 1000 64 64 66 66 67584 63550 0 0 false false)
    (JpegBlock.mk 0 0 64 64 8 fun _ => 0)
    (JpegBlock.mk 0 8 64 64 8 fun _ => 0)
    (by decide) (Or.inl ⟨by decide, by decide⟩) 3 8

/-- Nearest-neighbor path row index (source lines 300-303). -/
def nnLy (c : JpegCtx) (b : JpegBlock) (dstY : ℤ) : ℤ :=
  let ly := dstY * c.invScaleFP / FP_ONE - b.y
  let ly := if ly < 0 then 0 else ly
  if b.height ≤ ly then b.height - 1 else ly

/-- Nearest-neighbor path clamped column index (source lines 308-311). -/
def nnLx (c : JpegCtx) (b : JpegBlock) (dstX : ℤ) : ℤ :=
  let lx := dstX * c.invScaleFP / FP_ONE - b.x
  let lx := if lx < 0 then 0 else lx
  if b.widthUsed ≤ lx then b.widthUsed - 1 else lx

/-- C9: in the nearest-neighbor downscale path the clamped source column
index sampled for a destination x is monotone non-decreasing in x. -/
theorem nearest_neighbor_column_monotone (c : JpegCtx) (b : JpegBlock)
    (hinv : 0 ≤ c.invScaleFP) (x1 x2 : ℤ) (hx : x1 ≤ x2) :
    nnLx c b x1 ≤ nnLx c b x2 := by
  have hbase : x1 * c.invScaleFP / FP_ONE - b.x ≤ x2 * c.invScaleFP / FP_ONE - b.x := by
    have : x1 * c.invScaleFP / FP_ONE ≤ x2 * c.invScaleFP / FP_ONE :=
      Int.ediv_le_ediv (by norm_num [FP_ONE]) (mul_le_mul_of_nonneg_right hx hinv)
    omega
  simp only [nnLx]
  split_ifs <;> omega

/-- Witness for C9 at a concrete downscale configuration. -/
theorem nearest_neighbor_column_monotone_witness :
    nnLx (JpegCtx.mk 1000 1000 128 128 64 64 32768 131072 0 0 false false)
        (JpegBlock.mk 0 0 128 128 8 fun _ => 0) 10 ≤
      nnLx (JpegCtx.mk 1000 1000 128 128 64 64 32768 131072 0 0 false false)
        (JpegBlock.mk 0 0 128 128 8 fun _ => 0) 11 :=
  nearest_neighbor_column_monotone
    (JpegCtx.mk 1000 1000 128 128 64 64 32768 131072 0 0 false false)
    (JpegBlock.mk 0 0 128 128 8 fun _ => 0)
    (by decide) 10 11 (by decide)

/-- Bilinear path clamped row index `ly0` (source lines 208-211). -/
def ly0 (c : JpegCtx) (b : JpegBlock) (dstY : ℤ) : ℤ :=
  let l := dstY * c.invScaleFP / FP_ONE - b.y
  let l := if l < 0 then 0 else l
  if b.height ≤ l then b.height - 1 else l

/-- Bilinear path clamped row index `ly1 = ly0 + 1` (source lines
209, 212); note the source clamps `ly1` only from above. -/
def ly1 (c : JpegCtx) (b : JpegBlock) (dstY : ℤ) : ℤ :=
  let l := dstY * c.invScaleFP / FP_ONE - b.y + 1
  if b.height ≤ l then b.height - 1 else l

/-- Left-edge clamped column index `lx0` (source lines 223-227). -/
def leftLx0 (c : JpegCtx) (b : JpegBlock) (dstX : ℤ) : ℤ :=
  let l := dstX * c.invScaleFP / FP_ONE - b.x
  let l := if l < 0 then 0 else l
  if b.widthUsed ≤ l then b.widthUsed - 1 else l

/-- Left-edge clamped column index `lx1 = lx0 + 1` (source lines
224, 226, 228). -/
def leftLx1 (c : JpegCtx) (b : JpegBlock) (dstX : ℤ) : ℤ :=
  let l := dstX * c.invScaleFP / FP_ONE - b.x + 1
  let l := if l < 0 then 0 else l
  if b.widthUsed ≤ l then b.widthUsed - 1 else l

/-- Right-edge clamped column index `lx0` (source lines 274, 276);
the right edge has no lower clamp. -/
def rightLx0 (c : JpegCtx) (b : JpegBlock) (dstX : ℤ) : ℤ :=
  let l := dstX * c.invScaleFP / FP_ONE - b.x
  if b.widthUsed ≤ l then b.widthUsed - 1 else l

/-- Right-edge clamped column index `lx1` (source lines 275, 277). -/
def rightLx1 (c : JpegCtx) (b : JpegBlock) (dstX : ℤ) : ℤ :=
  let l := dstX * c.invScaleFP / FP_ONE - b.x + 1
  if b.widthUsed ≤ l then b.widthUsed - 1 else l

/-- The 16.16 bilinear weighted mix of the four samples at column
indices `lx0`, `lx1` and the clamped rows `ly0`, `ly1` (source lines
205-207, 214-215, 220-222, 230-232 and the identical arithmetic in the
interior and right-edge loops).  The final `% 256` models the `uint8`
cast of source line 232. -/
def bilinearMix (c : JpegCtx) (b : JpegBlock) (dstX dstY lx0 lx1 : ℤ) : ℕ :=
  let fx := dstX * c.invScaleFP % FP_ONE
  let fxInv := FP_ONE - fx
  let fy := dstY * c.invScaleFP % FP_ONE
  let fyInv := FP_ONE - fy
  let row0 := ly0 c b dstY * b.width
  let row1 := ly1 c b dstY * b.width
  let top := ((b.px (row0 + lx0) : ℤ) * fxInv + (b.px (row0 + lx1) : ℤ) * fx) / FP_ONE
  let bot := ((b.px (row1 + lx0) : ℤ) * fxInv + (b.px (row1 + lx1) : ℤ) * fx) / FP_ONE
  (((top * fyInv + bot * fy) / FP_ONE) % 256).toNat

/-- The bilinear-path gray for one destination pixel: the left edge,
interior and right edge loops (source lines 218-292) select the column
index clamping mode by comparing `dstX` with the safe interior range. -/
def bilinearGray (c : JpegCtx) (b : JpegBlock) (dstX dstY : ℤ) : ℕ :=
  if dstX < safeXStart c b then
    bilinearMix c b dstX dstY (leftLx0 c b dstX) (leftLx1 c b dstX)
  else if dstX < safeXEnd c b then
    bilinearMix c b dstX dstY (interiorLx0 c b dstX) (interiorLx0 c b dstX + 1)
  else
    bilinearMix c b dstX dstY (rightLx0 c b dstX) (rightLx1 c b dstX)

/-- The 1:1 fast path gray (source lines 170-176): the co-located
source sample of the block, with no interpolation. -/
def idGray (c : JpegCtx) (b : JpegBlock) (dstX dstY : ℤ) : ℕ :=
  b.px ((dstY - b.y) * b.width + (dstX - b.x))

/-- The nearest-neighbor path gray (source lines 298-312). -/
def nnGray (c : JpegCtx) (b : JpegBlock) (dstX dstY : ℤ) : ℕ :=
  b.px (nnLy c b dstY * b.width + nnLx c b dstX)

/-- The gray value `jpegDrawCallback` computes for one destination
pixel, dispatching on the forward factor exactly as the source does
(lines 170, 194, 297). -/
def blockGray (c : JpegCtx) (b : JpegBlock) (dstX dstY : ℤ) : ℕ :=
  if c.fineScaleFP = FP_ONE then idGray c b dstX dstY
  else if FP_ONE < c.fineScaleFP then bilinearGray c b dstX dstY
  else nnGray c b dstX dstY

/-- The quantized level written to the renderer and, when caching, to
the cache for one destination pixel (the identical quantize/dither step
of source lines 177-183, 234-240, 257-263, 283-289, 314-320).  The
ordered Bayer dither (`applyBayerDither4Level`, defined in
`DitherUtils.h`, outside the converter) is an explicit parameter; the
claims verified here all have dithering disabled. -/
def pixelLevel (bayer : ℕ → ℤ → ℤ → ℕ) (c : JpegCtx) (b : JpegBlock) (dstX dstY : ℤ) : ℕ :=
  if c.useDithering then bayer (blockGray c b dstX dstY) (c.cfgX + dstX) (c.cfgY + dstY)
  else quantizeNoDither (blockGray c b dstX dstY)

/-- C5: with forward factor exactly 1.0 and dithering disabled, every
destination pixel's level is `floor(source/85)` clamped to 3 of the
single co-located source sample — no blending — and sample 255 maps to
level 3, never 4. -/
theorem identity_path_quantization (bayer : ℕ → ℤ → ℤ → ℕ) (c : JpegCtx) (b : JpegBlock)
    (dstX dstY : ℤ) (h1 : c.fineScaleFP = FP_ONE) (h2 : c.useDithering = false) :
    pixelLevel bayer c b dstX dstY =
      min (b.px ((dstY - b.y) * b.width + (dstX - b.x)) / 85) 3 ∧
    (b.px ((dstY - b.y) * b.width + (dstX - b.x)) = 255 →
      pixelLevel bayer c b dstX dstY = 3) := by
  have hq : ∀ g : ℕ, quantizeNoDither g = min (g / 85) 3 := by
    intro g
    simp only [quantizeNoDither]
    split_ifs <;> omega
  have hmain : pixelLevel bayer c b dstX dstY =
      min (b.px ((dstY - b.y) * b.width + (dstX - b.x)) / 85) 3 := by
    rw [pixelLevel, h2, if_neg (by simp), blockGray, if_pos h1, idGray, hq]
  refine ⟨hmain, fun h255 => ?_⟩
  rw [hmain, h255]
  rfl

/-- Witness for C5: a constant-255 block at scale 1.0 yields level 3. -/
theorem identity_path_quantization_witness :
    pixelLevel (fun g _ _ => g) (JpegCtx.mk 1000 1000 64 64 64 64 FP_ONE FP_ONE 0 0 false false)
      (JpegBlock.mk 0 0 64 64 8 fun _ => 255) 5 3 = 3 :=
  (identity_path_quantization (fun g _ _ => g)
    (JpegCtx.mk 1000 1000 64 64 64 64 FP_ONE FP_ONE 0 0 false false)
    (JpegBlock.mk 0 0 64 64 8 fun _ => 255) 5 3 rfl rfl).2 rfl

/-- The bilinear mix of a constant block is exactly the constant:
`fx + fxInv = fy + fyInv = FP_ONE` and the two shifts divide exactly. -/
theorem bilinearMix_const (c : JpegCtx) (b : JpegBlock) (v : ℕ)
    (hpx : ∀ i, b.px i = v) (hv : v ≤ 255) (dstX dstY lx0 lx1 : ℤ) :
    bilinearMix c b dstX dstY lx0 lx1 = v := by
  rw [bilinearMix]
  simp only [hpx]
  have hfp : (0 : ℤ) < FP_ONE := by norm_num [FP_ONE]
  have hcancel : ∀ w : ℤ, ((v : ℤ) * (FP_ONE - w) + (v : ℤ) * w) / FP_ONE = (v : ℤ) := by
    intro w
    have : (v : ℤ) * (FP_ONE - w) + (v : ℤ) * w = (v : ℤ) * FP_ONE := by ring
    rw [this, Int.mul_ediv_cancel _ (ne_of_gt hfp)]
  rw [hcancel, hcancel]
  have hlt : (v : ℤ) < 256 := by exact_mod_cast Nat.lt_succ_of_le hv
  have hge : (0 : ℤ) ≤ (v : ℤ) := Int.ofNat_nonneg v
  rw [Int.emod_eq_of_lt hge hlt]
  simp

/-- C10: on the bilinear upscale path a constant block is preserved
exactly: if every sample of the block equals `v ≤ 255`, every
destination pixel of the block — left edge, interior or right edge —
computes gray exactly `v`. -/
theorem bilinear_preserves_constant (c : JpegCtx) (b : JpegBlock) (v : ℕ)
    (hup : FP_ONE < c.fineScaleFP) (hpx : ∀ i, b.px i = v) (hv : v ≤ 255)
    (dstX dstY : ℤ) :
    blockGray c b dstX dstY = v := by
  rw [blockGray, if_neg (by omega), if_pos hup, bilinearGray]
  split_ifs <;> exact bilinearMix_const c b v hpx hv _ _ _ _

/-- Witness for C10 on the concrete upscale configuration, at an edge
destination column and an interior one. -/
theorem bilinear_preserves_constant_witness :
    blockGray (JpegCtx.mk 1000 1000 64 8 66 8 67584 63550 0 0 false false)
      (JpegBlock.mk 32 0 32 32 8 fun _ => 200) 32 1 = 200 ∧
    blockGray (JpegCtx.mk 1000 1000 64 8 66 8 67584 63550 0 0 false false)
      (JpegBlock.mk 32 0 32 32 8 fun _ => 200) 40 1 = 200 :=
  ⟨bilinear_preserves_constant _ _ 200 (by decide) (fun _ => rfl) (by decide) 32 1,
   bilinear_preserves_constant _ _ 200 (by decide) (fun _ => rfl) (by decide) 40 1⟩

/-- Destination → source → destination coordinate round trip through
the pipeline's two independently divided 16.16 factors: destination x
maps to source sample `x * invScaleFP >> 16` (source lines 220/248/308)
and a source coordinate maps back through `* fineScaleFP >> 16`
(source lines 151-154). -/
def roundTripX (destW scaledW x : ℤ) : ℤ :=
  (x * invScaleFPOf destW scaledW / FP_ONE) * fineScaleFPOf destW scaledW / FP_ONE

/-- C4 counterexample: with `destWidth = 380`, `scaledSrcWidth = 381`
(forward factor 65363, inverse factor 65708, product ≠ 2^32), the
destination coordinate 379 round-trips to 377 — a backward drift of two
destination pixels, which exceeds one source-sample unit (one source
sample spans `destW/scaledW = 380/381 < 2` destination pixels:
`2 * 381 > 1 * 380`). -/
theorem roundtrip_drift_counterexample :
    fineScaleFPOf 380 381 = 65363 ∧
    invScaleFPOf 380 381 = 65708 ∧
    fineScaleFPOf 380 381 * invScaleFPOf 380 381 ≠ FP_ONE * FP_ONE ∧
    roundTripX 380 381 379 = 377 ∧
    (379 - roundTripX 380 381 379) * 381 > 1 * 380 := by
  refine ⟨by decide, by decide, by decide, by decide, by decide⟩

/-- C4, amended: the two factors are independent integer divisions whose
fixed-point product never exceeds unity (but can fall short of it), the
round trip never moves a destination coordinate forward, and the
backward drift is bounded by one source-sample unit plus one destination
pixel plus the drift accumulated from the product's shortfall from
unity: `2^32 * (x - x') < x * (2^32 - f*g) + 2^16 * f + 2^32`. -/
theorem roundtrip_drift_bound (d s x : ℤ) (hd : 0 < d) (hs : 0 < s) (hx : 0 ≤ x) :
    roundTripX d s x ≤ x ∧
    fineScaleFPOf d s * invScaleFPOf d s ≤ FP_ONE * FP_ONE ∧
    FP_ONE * FP_ONE * (x - roundTripX d s x) <
      x * (FP_ONE * FP_ONE - fineScaleFPOf d s * invScaleFPOf d s) +
      FP_ONE * fineScaleFPOf d s + FP_ONE * FP_ONE := by
  have hF : (0:ℤ) < FP_ONE := by norm_num [FP_ONE]
  simp only [roundTripX]
  set f := fineScaleFPOf d s with hfdef
  set g := invScaleFPOf d s with hgdef
  set u := x * g / FP_ONE with hudef
  set rt := u * f / FP_ONE with hrtdef
  have hf0 : 0 ≤ f := Int.ediv_nonneg (by positivity) hs.le
  have hg0 : 0 ≤ g := Int.ediv_nonneg (by positivity) hd.le
  set r1 := d * FP_ONE % s with hr1def
  have e1 : s * f + r1 = d * FP_ONE := Int.ediv_add_emod (d * FP_ONE) s
  have r1lb : 0 ≤ r1 := Int.emod_nonneg _ (ne_of_gt hs)
  set r2 := s * FP_ONE % d with hr2def
  have e2 : d * g + r2 = s * FP_ONE := Int.ediv_add_emod (s * FP_ONE) d
  have r2lb : 0 ≤ r2 := Int.emod_nonneg _ (ne_of_gt hd)
  set r3 := x * g % FP_ONE with hr3def
  have e3 : FP_ONE * u + r3 = x * g := Int.ediv_add_emod (x * g) FP_ONE
  have r3lb : 0 ≤ r3 := Int.emod_nonneg _ (ne_of_gt hF)
  have r3ub : r3 < FP_ONE := Int.emod_lt_of_pos _ hF
  set r4 := u * f % FP_ONE with hr4def
  have e4 : FP_ONE * rt + r4 = u * f := Int.ediv_add_emod (u * f) FP_ONE
  have r4lb : 0 ≤ r4 := Int.emod_nonneg _ (ne_of_gt hF)
  have r4ub : r4 < FP_ONE := Int.emod_lt_of_pos _ hF
  have hprod : f * g ≤ FP_ONE * FP_ONE := by
    have step1 : (s * f) * (d * g) ≤ (d * FP_ONE) * (d * g) :=
      mul_le_mul_of_nonneg_right (by linarith) (mul_nonneg hd.le hg0)
    have step2 : (d * FP_ONE) * (d * g) ≤ (d * FP_ONE) * (s * FP_ONE) :=
      mul_le_mul_of_nonneg_left (by linarith) (by positivity)
    have key : s * d * (f * g) ≤ s * d * (FP_ONE * FP_ONE) := by
      calc s * d * (f * g) = (s * f) * (d * g) := by ring
        _ ≤ (d * FP_ONE) * (s * FP_ONE) := step1.trans step2
        _ = s * d * (FP_ONE * FP_ONE) := by ring
    exact le_of_mul_le_mul_left key (by positivity)
  have hxfg : x * (f * g) ≤ x * (FP_ONE * FP_ONE) :=
    mul_le_mul_of_nonneg_left hprod hx
  have hexp : FP_ONE * FP_ONE * rt = x * (f * g) - r3 * f - FP_ONE * r4 := by
    have h4 : FP_ONE * rt = u * f - r4 := by linarith
    have h3 : FP_ONE * u = x * g - r3 := by linarith
    calc FP_ONE * FP_ONE * rt = FP_ONE * (FP_ONE * rt) := by ring
      _ = FP_ONE * (u * f - r4) := by rw [h4]
      _ = (FP_ONE * u) * f - FP_ONE * r4 := by ring
      _ = (x * g - r3) * f - FP_ONE * r4 := by rw [h3]
      _ = x * (f * g) - r3 * f - FP_ONE * r4 := by ring
  have hle : rt ≤ x := by
    have key : FP_ONE * FP_ONE * rt ≤ FP_ONE * FP_ONE * x := by
      have h1 : 0 ≤ r3 * f := mul_nonneg r3lb hf0
      have h2 : 0 ≤ FP_ONE * r4 := mul_nonneg hF.le r4lb
      calc FP_ONE * FP_ONE * rt = x * (f * g) - r3 * f - FP_ONE * r4 := hexp
        _ ≤ x * (FP_ONE * FP_ONE) := by linarith
        _ = FP_ONE * FP_ONE * x := by ring
    exact le_of_mul_le_mul_left key (by positivity)
  refine ⟨hle, hprod, ?_⟩
  have h1 : r3 * f ≤ FP_ONE * f := mul_le_mul_of_nonneg_right r3ub.le hf0
  have h2 : FP_ONE * r4 < FP_ONE * FP_ONE := mul_lt_mul_of_pos_left r4ub hF
  nlinarith [hexp, h1, h2]

/-- Witness for the amended C4 bound at the counterexample's
configuration. -/
theorem roundtrip_drift_bound_witness :
    roundTripX 380 381 379 ≤ 379 ∧
    fineScaleFPOf 380 381 * invScaleFPOf 380 381 ≤ FP_ONE * FP_ONE ∧
    FP_ONE * FP_ONE * (379 - roundTripX 380 381 379) <
      379 * (FP_ONE * FP_ONE - fineScaleFPOf 380 381 * invScaleFPOf 380 381) +
      FP_ONE * fineScaleFPOf 380 381 + FP_ONE * FP_ONE :=
  roundtrip_drift_bound 380 381 379 (by norm_num) (by norm_num) (by norm_num)

/-- Environment of one `decodeToFramebuffer` call: everything the
function observes from the outside world, in the order it observes it
(source lines 360-486).  `decoderAllocOk` models the `new (std::nothrow)
JPEGDEC` result, `openOk` the `jpeg->open` result, `dimsSupported` the
`validateImageDimensions` check (declared outside this translation
unit), `decodeOk` the `jpeg->decode` result and `cacheAllocOk` the
`PixelCache::allocate` result. -/
structure DecodeEnv where
  mk ::
  freeHeap : ℕ
  decoderAllocOk : Bool
  openOk : Bool
  srcWidth : ℤ
  srcHeight : ℤ
  dimsSupported : Bool
  isProgressive : Bool
  decodeOk : Bool
  cacheAllocOk : Bool
  cfg : RenderConfig

/-- Observable outcome of one `decodeToFramebuffer` call:
the returned bool, whether a decode-engine instance was successfully
allocated, whether the source open was attempted, the caching flag in
effect during the decode, and whether `cache.writeToFile` ran. -/
structure DecodeOutcome where
  mk ::
  success : Bool
  decoderAllocated : Bool
  openAttempted : Bool
  cachingActive : Bool
  cacheFileWritten : Bool

/-- `JpegToFramebufferConverter::decodeToFramebuffer` (source lines
360-486) as a function from the observed environment to the observable
outcome, following the source's early-return structure:
heap guard (364-368), decoder allocation (370-374), open (382-387),
dimension validation (389-403), cache allocation with non-fatal
degradation (457-463), decode (466-474), cache flush (481-483). -/
def decodeToFramebuffer (env : DecodeEnv) : DecodeOutcome :=
  if env.freeHeap < MIN_FREE_HEAP_FOR_JPEG then
    DecodeOutcome.mk false false false false false
  else if env.decoderAllocOk = false then
    DecodeOutcome.mk false false false false false
  else if env.openOk = false then
    DecodeOutcome.mk false true true false false
  else if env.srcWidth ≤ 0 ∨ env.srcHeight ≤ 0 then
    DecodeOutcome.mk false true true false false
  else if env.dimsSupported = false then
    DecodeOutcome.mk false true true false false
  else
    let caching0 := !env.cfg.cachePathEmpty
    let caching := if caching0 && !env.cacheAllocOk then false else caching0
    if env.decodeOk = false then
      DecodeOutcome.mk false true true caching false
    else
      DecodeOutcome.mk true true true caching caching

/-- C7: with free heap below the decode-engine footprint plus headroom,
the call fails immediately: no decode-engine instance is allocated and
the source file is never opened. -/
theorem heap_guard_rejects_first (env : DecodeEnv)
    (h : env.freeHeap < MIN_FREE_HEAP_FOR_JPEG) :
    (decodeToFramebuffer env).success = false ∧
    (decodeToFramebuffer env).decoderAllocated = false ∧
    (decodeToFramebuffer env).openAttempted = false := by
  rw [decodeToFramebuffer, if_pos h]
  exact ⟨rfl, rfl, rfl⟩

/-- Witness for C7 with 36863 free bytes (one below the 36864 guard). -/
theorem heap_guard_rejects_first_witness :
    (decodeToFramebuffer (DecodeEnv.mk 36863 true true 800 600 true false true true
      (RenderConfig.mk 0 0 400 300 false false false))).success = false ∧
    (decodeToFramebuffer (DecodeEnv.mk 36863 true true 800 600 true false true true
      (RenderConfig.mk 0 0 400 300 false false false))).decoderAllocated = false ∧
    (decodeToFramebuffer (DecodeEnv.mk 36863 true true 800 600 true false true true
      (RenderConfig.mk 0 0 400 300 false false false))).openAttempted = false :=
  heap_guard_rejects_first
    (DecodeEnv.mk 36863 true true 800 600 true false true true
      (RenderConfig.mk 0 0 400 300 false false false))
    (by norm_num [MIN_FREE_HEAP_FOR_JPEG, JPEG_DECODER_APPROX_SIZE])

/-- The same environment with caching disabled (empty cache path and a
succeeding — hence irrelevant — cache allocation), used to state that
caching never changes the decode result. -/
def withoutCaching (env : DecodeEnv) : DecodeEnv :=
  DecodeEnv.mk env.freeHeap env.decoderAllocOk env.openOk env.srcWidth env.srcHeight
    env.dimsSupported env.isProgressive env.decodeOk true
    (RenderConfig.mk env.cfg.x env.cfg.y env.cfg.maxWidth env.cfg.maxHeight
      env.cfg.useExactDimensions env.cfg.useDithering true)

/-- C8: caching never changes the decode result.  (1) The returned
success bit always equals that of the same call with caching disabled;
in particular a cache-allocation failure does not fail the call.
(2) On cache-allocation failure, caching is inactive and no cache file
is produced.  (3) The cache file is written only on a call that returns
success with caching active, and a failed decode produces no cache
file.  (4) The per-pixel level written to the graphics sink does not
depend on the caching flag. -/
theorem cache_never_changes_decode_result (env : DecodeEnv) :
    ((decodeToFramebuffer env).success = (decodeToFramebuffer (withoutCaching env)).success) ∧
    (env.cacheAllocOk = false →
      (decodeToFramebuffer env).cachingActive = false ∧
      (decodeToFramebuffer env).cacheFileWritten = false) ∧
    ((decodeToFramebuffer env).cacheFileWritten = true →
      (decodeToFramebuffer env).success = true ∧
      (decodeToFramebuffer env).cachingActive = true) ∧
    ((decodeToFramebuffer env).success = false →
      (decodeToFramebuffer env).cacheFileWritten = false) ∧
    (∀ (bayer : ℕ → ℤ → ℤ → ℕ) (sw sh ssw ssh dw dh fsc isc cx cy : ℤ)
       (dith : Bool) (b : JpegBlock) (dstX dstY : ℤ),
      pixelLevel bayer (JpegCtx.mk sw sh ssw ssh dw dh fsc isc cx cy dith true) b dstX dstY =
      pixelLevel bayer (JpegCtx.mk sw sh ssw ssh dw dh fsc isc cx cy dith false) b dstX dstY) := by
  refine ⟨?_, ?_, ?_, ?_, fun bayer sw sh ssw ssh dw dh fsc isc cx cy dith b dstX dstY => rfl⟩
  · simp only [decodeToFramebuffer, withoutCaching]
    split_ifs <;> rfl
  · intro h
    simp only [decodeToFramebuffer]
    cases hc : env.cfg.cachePathEmpty <;> split_ifs <;> simp_all
  · simp only [decodeToFramebuffer]
    split_ifs <;> intro h <;> simp_all
  · simp only [decodeToFramebuffer]
    split_ifs <;> intro h <;> simp_all

/-- Witness for C8: a call with caching requested (non-empty cache
path) whose cache allocation fails still runs, is not caching, and
writes no cache file. -/
theorem cache_never_changes_decode_result_witness :
    (decodeToFramebuffer (DecodeEnv.mk 100000 true true 800 600 true false true false
      (RenderConfig.mk 0 0 400 300 false false false))).cachingActive = false ∧
    (decodeToFramebuffer (DecodeEnv.mk 100000 true true 800 600 true false true false
      (RenderConfig.mk 0 0 400 300 false false false))).cacheFileWritten = false :=
  (cache_never_changes_decode_result (DecodeEnv.mk 100000 true true 800 600 true false true false
    (RenderConfig.mk 0 0 400 300 false false false))).2.1 rfl

end JpegToFramebuffer
